import Mathlib

/-!
Shallow embedding of the quest bot's data model and submission/completion
logic, translated from src/database.py, src/bot.py and src/utils.py, together
with theorems settling the specification's claims about that logic.

Modelling conventions:
* Database tables are lists of rows in storage (rowid/insertion) order; a
  SQLAlchemy `.first()` on an unordered query is the head of the filtered
  list, matching SQLite's row-scan order for these simple tables.
* Timestamps (`datetime.now()`) are abstract `Nat` ticks passed in as a
  `now` argument where an operation records one.
* The photo directory is the list of existing file paths; `os.remove`
  guarded by `os.path.exists` is removal from that list (a missing file is
  a no-op, never an error, exactly as in the source's guarded removal).
* Chat-message side effects (notifications, menus) are external I/O and are
  not part of the state.
-/

namespace QuestBot

/-- Row of the `users` table (src/database.py, class User). -/
structure User where
  id : Nat
  telegram_id : Int
  username : String
  is_admin : Bool
deriving DecidableEq

/-- Row of the `quests` table (src/database.py, class Quest). The unused
`created_at` column is omitted (no claim reads it). -/
structure Quest where
  id : Nat
  title : String
  description : String
  image_url : Option String
  reward : String
  required_completions : Nat
  is_active : Bool
  created_by : Nat
deriving DecidableEq

/-- Row of the `tasks` table (src/database.py, class Task). -/
structure Task where
  id : Nat
  quest_id : Nat
  title : String
  description : String
  image_url : Option String
  points : Nat
  order : Nat
  scheduled_date : Option String
  is_completed : Bool
deriving DecidableEq

/-- Row of the `submissions` table (src/database.py, class Submission). -/
structure Submission where
  id : Nat
  task_id : Nat
  user_id : Nat
  photo_url : Option String
  comment : String
  submitted_at : Nat
  is_approved : Bool
  approved_at : Option Nat
deriving DecidableEq

/-- Row of the `quest_completions` table (src/database.py,
class QuestCompletion). -/
structure QuestCompletion where
  id : Nat
  quest_id : Nat
  user_id : Nat
  completed_at : Nat
  reward_claimed : Bool
deriving DecidableEq

/-- The relational store: one list of rows per table, in storage order. -/
structure DB where
  users : List User
  quests : List Quest
  tasks : List Task
  submissions : List Submission
  completions : List QuestCompletion
deriving DecidableEq

/-- Full program state: the database plus the set of photo files on disk. -/
structure State where
  db : DB
  files : List String
deriving DecidableEq

/-- Query `session.query(Submission).filter(Submission.id == sid).first()`. -/
def findSubmission (subs : List Submission) (sid : Nat) : Option Submission :=
  subs.find? (fun x => x.id == sid)

/-- Query `session.query(Task).filter(Task.id == tid).first()`. -/
def findTask (tasks : List Task) (tid : Nat) : Option Task :=
  tasks.find? (fun t => t.id == tid)

/-- Query `session.query(Quest).filter(Quest.id == qid).first()`. -/
def findQuest (quests : List Quest) (qid : Nat) : Option Quest :=
  quests.find? (fun q => q.id == qid)

/-- Query `session.query(QuestCompletion).filter_by(quest_id=..., user_id=...).first()`. -/
def findCompletion (comps : List QuestCompletion) (qid uid : Nat) : Option QuestCompletion :=
  comps.find? (fun c => c.quest_id == qid && c.user_id == uid)

/-- Fresh autoincrement primary key for a new row. -/
def nextId (ids : List Nat) : Nat := ids.foldr max 0 + 1

/-- Python `format_progress_bar` (src/utils.py:16-22) with its default
`length=10` made an explicit third argument.  The source computes
`int((completed/total)*100)` in floating point; on the inputs the claims
evaluate it at (3/10 and 0/0) this coincides with the exact integer
quotient `completed * 100 / total` used here. -/
def format_progress_bar (completed total length : Nat) : String :=
  if total == 0 then
    String.mk (List.replicate length '░')
  else
    let percent := completed * 100 / total
    let filled := percent / 10
    String.mk (List.replicate filled '█' ++ List.replicate (length - filled) '░')

/-- Update applied to the approved submission row: `sub.is_approved = True;
sub.approved_at = datetime.now()` (src/bot.py:641-642), as a map over the
table that touches only rows with the given id. -/
def approveUpd (sid now : Nat) (x : Submission) : Submission :=
  if x.id == sid then { x with is_approved := true, approved_at := some now } else x

/-- The `approve_<id>` branch of `handle_callback` (src/bot.py:634-697).
Looks up the submission; if present, marks it approved and commits, then
counts ALL of the user's approved submissions (the query filters only by
`user_id` and `is_approved`, src/bot.py:645-647), resolves the submission's
task's quest, and if the count reaches `required_completions` and no
QuestCompletion row exists for (quest, user), inserts one (check-then-insert,
src/bot.py:652-661).  A dangling task or quest reference raises after the
approval commit (caught by the handler's outer `except`), leaving the rest
of the state untouched. -/
def approve (s : State) (sub_id now : Nat) : State :=
  match findSubmission s.db.submissions sub_id with
  | none => s
  | some sub =>
    let subs := s.db.submissions.map (approveUpd sub_id now)
    let db1 : DB := { s.db with submissions := subs }
    let completed := (subs.filter (fun x => x.user_id == sub.user_id && x.is_approved)).length
    match findTask db1.tasks sub.task_id with
    | none => { s with db := db1 }
    | some task =>
      match findQuest db1.quests task.quest_id with
      | none => { s with db := db1 }
      | some quest =>
        if quest.required_completions ≤ completed then
          match findCompletion db1.completions quest.id sub.user_id with
          | some _ => { s with db := db1 }
          | none =>
            { s with db := { db1 with completions := db1.completions ++
                [{ id := nextId (db1.completions.map (·.id)), quest_id := quest.id,
                   user_id := sub.user_id, completed_at := now, reward_claimed := false }] } }
        else { s with db := db1 }

/-- The `reject_<id>` branch of `handle_callback` (src/bot.py:700-730).
Looks up the submission; reads `sub.task.title` (a dangling task reference
raises here, before any mutation), removes the photo file if it exists,
then deletes the submission row and commits.  Row deletion by primary key
is the filter keeping every row with a different id. -/
def reject (s : State) (sub_id : Nat) : State :=
  match findSubmission s.db.submissions sub_id with
  | none => s
  | some sub =>
    match findTask s.db.tasks sub.task_id with
    | none => s
    | some _ =>
      let files := match sub.photo_url with
        | some p => s.files.filter (fun q => q != p)
        | none => s.files
      { db := { s.db with submissions := s.db.submissions.filter (fun x => x.id != sub_id) },
        files := files }

/-- The new row inserted by `process_complete_submission`
(src/bot.py:1111-1118): `is_approved` defaults to false, `approved_at`
to NULL, and the primary key is the next autoincrement value. -/
def newSubmissionRow (db : DB) (task_id user_id : Nat)
    (photo_path comment_text : String) (now : Nat) : Submission :=
  { id := nextId (db.submissions.map (·.id)), task_id := task_id, user_id := user_id,
    photo_url := some photo_path, comment := comment_text,
    submitted_at := now, is_approved := false, approved_at := none }

/-- Python `process_complete_submission` (src/bot.py:1085-1146).  Deletes
every old unapproved submission for the (task, user) pair together with its
photo file (src/bot.py:1095-1108), then inserts the new pending submission
and commits (src/bot.py:1110-1119).  The source resolves the submitting
user's row from the fixed chat id; here the resolved `user_id` is passed
directly.  The admin notification afterwards is external I/O. -/
def process_complete_submission (s : State) (task_id user_id : Nat)
    (photo_path comment_text : String) (now : Nat) : State :=
  let isOldPending : Submission → Bool := fun x =>
    x.task_id == task_id && x.user_id == user_id && !x.is_approved
  let old := s.db.submissions.filter isOldPending
  let files := s.files.filter (fun p => !(old.any (fun x => x.photo_url == some p)))
  let kept := s.db.submissions.filter (fun x => !(isOldPending x))
  { db := { s.db with submissions :=
      kept ++ [newSubmissionRow s.db task_id user_id photo_path comment_text now] },
    files := files }

/-- Python `cleanup_task_files` (src/bot.py:155-178): removes from disk the
photo of every submission of the task, then the task's own image, each
removal guarded by an existence check. -/
def cleanup_task_files (db : DB) (files : List String) (task_id : Nat) : List String :=
  let subPaths := (db.submissions.filter (fun x => x.task_id == task_id)).filterMap (·.photo_url)
  let files1 := files.filter (fun p => !(subPaths.contains p))
  match (findTask db.tasks task_id).bind (·.image_url) with
  | some img => files1.filter (fun p => p != img)
  | none => files1

/-- Python `cleanup_quest_files` (src/bot.py:180-198): runs
`cleanup_task_files` for every task of the quest, then removes the quest's
own image.  The stub of the same name in src/utils.py is shadowed by this
definition, which is the one the module calls. -/
def cleanup_quest_files (db : DB) (files : List String) (quest_id : Nat) : List String :=
  let files1 := ((db.tasks.filter (fun t => t.quest_id == quest_id)).map (·.id)).foldl
    (cleanup_task_files db) files
  match (findQuest db.quests quest_id).bind (·.image_url) with
  | some img => files1.filter (fun p => p != img)
  | none => files1

/-- The `confirm_delete_quest_<id>` branch of `handle_callback`
(src/bot.py:424-446): first all files of the quest are removed via
`cleanup_quest_files` (reading the pre-delete rows), then the quest row is
deleted; the ORM cascade `all, delete-orphan` on Quest.tasks and
Task.submissions (src/database.py:37,52) removes the quest's tasks and
their submissions.  QuestCompletion rows have no delete cascade and are
left in place (no claim depends on their foreign-key handling). -/
def confirm_delete_quest (s : State) (quest_id : Nat) : State :=
  let files := cleanup_quest_files s.db s.files quest_id
  match findQuest s.db.quests quest_id with
  | none => { s with files := files }
  | some _ =>
    let questTaskIds := (s.db.tasks.filter (fun t => t.quest_id == quest_id)).map (·.id)
    { db := { s.db with
        quests := s.db.quests.filter (fun q => q.id != quest_id),
        tasks := s.db.tasks.filter (fun t => t.quest_id != quest_id),
        submissions := s.db.submissions.filter (fun x => !(questTaskIds.contains x.task_id)) },
      files := files }

/-- Quest ids in the user's QuestCompletion set (src/bot.py:817). -/
def completedQuestIds (db : DB) (uid : Nat) : List Nat :=
  (db.completions.filter (fun c => c.user_id == uid)).map (·.quest_id)

/-- Quest selection of `show_current_quest` (src/bot.py:815-825): the first
stored active quest whose id is not among the user's completed quests; the
source special-cases an empty completed set with an equivalent simpler
query. -/
def selectCurrentQuest (db : DB) (uid : Nat) : Option Quest :=
  let ids := completedQuestIds db uid
  if ids.isEmpty then
    db.quests.find? (fun q => q.is_active)
  else
    db.quests.find? (fun q => q.is_active && !(ids.contains q.id))

/-- Truth of the "you completed all quests" report of `show_current_quest`
(src/bot.py:827-833), shown exactly when no quest was selected. -/
def allQuestsDone (db : DB) (uid : Nat) : Bool :=
  (selectCurrentQuest db uid).isNone

/-- Task ids with an approved submission by the user (src/bot.py:837-839). -/
def approvedTaskIds (db : DB) (uid : Nat) : List Nat :=
  (db.submissions.filter (fun x => x.user_id == uid && x.is_approved)).map (·.task_id)

/-- Task ids with an unapproved submission by the user (src/bot.py:841-843). -/
def pendingTaskIds (db : DB) (uid : Nat) : List Nat :=
  (db.submissions.filter (fun x => x.user_id == uid && !x.is_approved)).map (·.task_id)

/-- The four per-task display states of the active-quest view. -/
inductive TaskDisplay where
  | approved
  | pending
  | scheduledFuture
  | available
deriving DecidableEq

/-- Per-task display branch of `show_current_quest` (src/bot.py:866-875):
approved if the task id is in the approved list, else pending if in the
pending list, else scheduled-future if the task has a scheduled date
strictly greater than today's ISO date (Python compares the strings
lexicographically, as `<` on `String` does here), else available. -/
def taskDisplayState (completedIds pendingIds : List Nat) (today : String)
    (t : Task) : TaskDisplay :=
  if completedIds.contains t.id then .approved
  else if pendingIds.contains t.id then .pending
  else if (match t.scheduled_date with
           | some d => decide (today < d)
           | none => false) then .scheduledFuture
  else .available

/-- Tasks offered a submission button by `show_current_quest`: exactly the
ones falling into the final `else` branch (src/bot.py:873-875). -/
def offeredTasks (db : DB) (uid : Nat) (tasks : List Task) (today : String) : List Task :=
  tasks.filter (fun t =>
    decide (taskDisplayState (approvedTaskIds db uid) (pendingTaskIds db uid) today t
      = TaskDisplay.available))

/-- Test whether the task with id `tid` belongs to quest `qid`
(the join `Submission.join(Task).filter(Task.quest_id == quest.id)`). -/
def taskInQuest (tasks : List Task) (tid qid : Nat) : Bool :=
  tasks.any (fun t => t.id == tid && t.quest_id == qid)

/-- Per-quest approved-submission count of a user: the join used by
`show_my_stats` (src/bot.py:938-942) and the spec's per-quest progress. -/
def perQuestApprovedCount (db : DB) (uid qid : Nat) : Nat :=
  (db.submissions.filter (fun x =>
    x.user_id == uid && x.is_approved && taskInQuest db.tasks x.task_id qid)).length

/-- Global approved-submission count of a user, the quantity the approve
handler actually compares against the threshold (src/bot.py:645-647). -/
def approvedCount (db : DB) (uid : Nat) : Nat :=
  (db.submissions.filter (fun x => x.user_id == uid && x.is_approved)).length

/-- Invariant: at most one QuestCompletion row per (quest, user) pair. -/
def completionsUnique (db : DB) : Prop :=
  db.completions.Pairwise (fun a b => ¬(a.quest_id = b.quest_id ∧ a.user_id = b.user_id))

/-- Invariant: at most one unapproved submission per (task, user) pair. -/
def pendingUnique (db : DB) : Prop :=
  db.submissions.Pairwise (fun a b =>
    ¬(a.task_id = b.task_id ∧ a.user_id = b.user_id ∧
      a.is_approved = false ∧ b.is_approved = false))

instance (db : DB) : Decidable (completionsUnique db) := by
  unfold completionsUnique; infer_instance

instance (db : DB) : Decidable (pendingUnique db) := by
  unfold pendingUnique; infer_instance

/-- Display state as §4.2 of the spec words it: approved if the user has an
approved submission for the task; otherwise pending if the user has an
unapproved submission for it; otherwise scheduled-future if the task's
scheduled date is strictly after the current date; otherwise available.
This is the refinement target compared against `taskDisplayState`. -/
def specTaskDisplayState (db : DB) (uid : Nat) (today : String) (t : Task) : TaskDisplay :=
  if db.submissions.any (fun x => (x.user_id == uid && x.is_approved) && x.task_id == t.id) then
    .approved
  else if db.submissions.any (fun x => (x.user_id == uid && !x.is_approved) && x.task_id == t.id) then
    .pending
  else if (match t.scheduled_date with
           | some d => decide (today < d)
           | none => false) then .scheduledFuture
  else .available

/-- Example state: two quests; quest 1 (threshold 1) is already completed
through approved submission 1, and submission 2 is pending on quest 2
(threshold 2). -/
def exS1 : State :=
  { db :=
    { users := [{ id := 1, telegram_id := 10, username := "g", is_admin := false }],
      quests :=
        [{ id := 1, title := "q1", description := "d", image_url := none, reward := "r1",
           required_completions := 1, is_active := true, created_by := 2 },
         { id := 2, title := "q2", description := "d", image_url := none, reward := "r2",
           required_completions := 2, is_active := true, created_by := 2 }],
      tasks :=
        [{ id := 1, quest_id := 1, title := "t1", description := "d", image_url := none,
           points := 1, order := 1, scheduled_date := none, is_completed := false },
         { id := 2, quest_id := 2, title := "t2", description := "d", image_url := none,
           points := 1, order := 1, scheduled_date := none, is_completed := false }],
      submissions :=
        [{ id := 1, task_id := 1, user_id := 1, photo_url := some "p1.jpg", comment := "c",
           submitted_at := 1, is_approved := true, approved_at := some 2 },
         { id := 2, task_id := 2, user_id := 1, photo_url := some "p2.jpg", comment := "c",
           submitted_at := 3, is_approved := false, approved_at := none }],
      completions :=
        [{ id := 1, quest_id := 1, user_id := 1, completed_at := 2, reward_claimed := false }] },
    files := ["p1.jpg", "p2.jpg"] }

/-- Example state: one quest with threshold 1, its single submission already
approved and its completion already recorded — the configuration in which a
repeated approval would re-cross the threshold. -/
def exS2 : State :=
  { db :=
    { users := [{ id := 1, telegram_id := 10, username := "g", is_admin := false }],
      quests :=
        [{ id := 1, title := "q", description := "d", image_url := none, reward := "r",
           required_completions := 1, is_active := true, created_by := 2 }],
      tasks :=
        [{ id := 1, quest_id := 1, title := "t", description := "d", image_url := none,
           points := 1, order := 1, scheduled_date := none, is_completed := false }],
      submissions :=
        [{ id := 1, task_id := 1, user_id := 1, photo_url := some "p2a.jpg", comment := "c",
           submitted_at := 1, is_approved := true, approved_at := some 2 }],
      completions :=
        [{ id := 1, quest_id := 1, user_id := 1, completed_at := 2, reward_claimed := false }] },
    files := ["p2a.jpg"] }

/-- Example state: task 1 has an old pending submission with a stored photo;
a second submission for the same task is about to supersede it. -/
def exS3 : State :=
  { db :=
    { users := [{ id := 1, telegram_id := 10, username := "g", is_admin := false }],
      quests :=
        [{ id := 1, title := "q", description := "d", image_url := none, reward := "r",
           required_completions := 2, is_active := true, created_by := 2 }],
      tasks :=
        [{ id := 1, quest_id := 1, title := "t", description := "d", image_url := none,
           points := 1, order := 1, scheduled_date := none, is_completed := false }],
      submissions :=
        [{ id := 1, task_id := 1, user_id := 1, photo_url := some "old3.jpg", comment := "c",
           submitted_at := 1, is_approved := false, approved_at := none }],
      completions := [] },
    files := ["old3.jpg", "keep3.jpg"] }

/-- Example state: a single approved submission (id 1) on quest 1, which the
reject handler can be pointed at. -/
def exS4 : State :=
  { db :=
    { users := [{ id := 1, telegram_id := 10, username := "g", is_admin := false }],
      quests :=
        [{ id := 1, title := "q", description := "d", image_url := none, reward := "r",
           required_completions := 2, is_active := true, created_by := 2 }],
      tasks :=
        [{ id := 1, quest_id := 1, title := "t", description := "d", image_url := none,
           points := 1, order := 1, scheduled_date := none, is_completed := false }],
      submissions :=
        [{ id := 1, task_id := 1, user_id := 1, photo_url := some "p4.jpg", comment := "c",
           submitted_at := 1, is_approved := true, approved_at := some 2 }],
      completions := [] },
    files := ["p4.jpg"] }

/-- Example state for the C5 counterexample: like exS4, an approved
submission the reject handler deletes. -/
def exS5 : State :=
  { db :=
    { users := [{ id := 1, telegram_id := 10, username := "g", is_admin := false }],
      quests :=
        [{ id := 1, title := "q", description := "d", image_url := none, reward := "r",
           required_completions := 2, is_active := true, created_by := 2 }],
      tasks :=
        [{ id := 1, quest_id := 1, title := "t", description := "d", image_url := none,
           points := 1, order := 1, scheduled_date := none, is_completed := false }],
      submissions :=
        [{ id := 1, task_id := 1, user_id := 1, photo_url := some "p5.jpg", comment := "c",
           submitted_at := 1, is_approved := true, approved_at := some 2 }],
      completions := [] },
    files := ["p5.jpg"] }

/-- Pending submission used by the amended-C5 witness. -/
def subW5 : Submission :=
  { id := 1, task_id := 1, user_id := 1, photo_url := some "p5w.jpg", comment := "c",
    submitted_at := 1, is_approved := false, approved_at := none }

/-- Example state: one pending submission (subW5) plus an unrelated approved
one, for rejecting the pending submission. -/
def exS5w : State :=
  { db :=
    { users := [{ id := 1, telegram_id := 10, username := "g", is_admin := false }],
      quests :=
        [{ id := 1, title := "q", description := "d", image_url := none, reward := "r",
           required_completions := 2, is_active := true, created_by := 2 }],
      tasks :=
        [{ id := 1, quest_id := 1, title := "t", description := "d", image_url := none,
           points := 1, order := 1, scheduled_date := none, is_completed := false },
         { id := 2, quest_id := 1, title := "t2", description := "d", image_url := none,
           points := 1, order := 2, scheduled_date := none, is_completed := false }],
      submissions :=
        [subW5,
         { id := 2, task_id := 2, user_id := 1, photo_url := some "p5k.jpg", comment := "c",
           submitted_at := 2, is_approved := true, approved_at := some 3 }],
      completions := [] },
    files := ["p5w.jpg", "p5k.jpg"] }

/-- Example state for quest deletion: quest 1 owns tasks 1 and 2 with
submission photos and a task image and a quest image; quest 2 and its task 3
must survive the deletion of quest 1. -/
def exS6 : State :=
  { db :=
    { users := [{ id := 1, telegram_id := 10, username := "g", is_admin := false }],
      quests :=
        [{ id := 1, title := "q6", description := "d", image_url := some "q6.jpg", reward := "r",
           required_completions := 2, is_active := true, created_by := 2 },
         { id := 2, title := "q6b", description := "d", image_url := some "q6b.jpg", reward := "r",
           required_completions := 1, is_active := true, created_by := 2 }],
      tasks :=
        [{ id := 1, quest_id := 1, title := "t1", description := "d", image_url := some "t6a.jpg",
           points := 1, order := 1, scheduled_date := none, is_completed := false },
         { id := 2, quest_id := 1, title := "t2", description := "d", image_url := none,
           points := 1, order := 2, scheduled_date := none, is_completed := false },
         { id := 3, quest_id := 2, title := "t3", description := "d", image_url := none,
           points := 1, order := 1, scheduled_date := none, is_completed := false }],
      submissions :=
        [{ id := 1, task_id := 1, user_id := 1, photo_url := some "s6a.jpg", comment := "c",
           submitted_at := 1, is_approved := true, approved_at := some 2 },
         { id := 2, task_id := 2, user_id := 1, photo_url := some "s6b.jpg", comment := "c",
           submitted_at := 3, is_approved := false, approved_at := none },
         { id := 3, task_id := 3, user_id := 1, photo_url := some "keep6.jpg", comment := "c",
           submitted_at := 4, is_approved := false, approved_at := none }],
      completions := [] },
    files := ["q6.jpg", "q6b.jpg", "t6a.jpg", "s6a.jpg", "s6b.jpg", "keep6.jpg"] }

/-- Quest row the C6 witness deletes. -/
def exQ6 : Quest :=
  { id := 1, title := "q6", description := "d", image_url := some "q6.jpg", reward := "r",
    required_completions := 2, is_active := true, created_by := 2 }

/-- Active quest that the C8 witness expects the selection to return. -/
def exQ3 : Quest :=
  { id := 3, title := "q3", description := "d", image_url := none, reward := "r3",
    required_completions := 1, is_active := true, created_by := 2 }

/-- Example store for quest selection: quest 1 inactive, quest 2 active but
already completed by user 1, quests 3 and 4 active and not completed. -/
def exDb8 : DB :=
  { users := [{ id := 1, telegram_id := 10, username := "g", is_admin := false }],
    quests :=
      [{ id := 1, title := "q1", description := "d", image_url := none, reward := "r1",
         required_completions := 1, is_active := false, created_by := 2 },
       { id := 2, title := "q2", description := "d", image_url := none, reward := "r2",
         required_completions := 1, is_active := true, created_by := 2 },
       exQ3,
       { id := 4, title := "q4", description := "d", image_url := none, reward := "r4",
         required_completions := 1, is_active := true, created_by := 2 }],
    tasks := [],
    submissions := [],
    completions :=
      [{ id := 1, quest_id := 2, user_id := 1, completed_at := 2, reward_claimed := false }] }

/-- C7: the progress-bar formatter renders 3 of 10 as three filled then
seven empty segments on the default length of 10, and a 0-of-0 bar as all
empty segments of the default length, with no division by zero. -/
theorem format_progress_bar_cases :
    format_progress_bar 3 10 10 = "███░░░░░░░" ∧
    format_progress_bar 0 0 10 = "░░░░░░░░░░" := by
  constructor <;> rfl

/-- Helper: a filtered count does not shrink under a map that turns matching
elements into matching elements. -/
theorem length_filter_le_map {α : Type} (p q : α → Bool) (f : α → α) (l : List α)
    (h : ∀ x ∈ l, p x = true → q (f x) = true) :
    (l.filter p).length ≤ ((l.map f).filter q).length := by
  induction l with
  | nil => simp
  | cons a l ih =>
    have ih' := ih fun x hx hpx => h x (List.mem_cons_of_mem a hx) hpx
    by_cases hp : p a = true
    · have hq := h a (List.mem_cons_self a l) hp
      simp only [List.filter_cons, hp, if_pos, List.map_cons, hq, List.length_cons]
      exact Nat.succ_le_succ ih'
    · simp only [Bool.not_eq_true] at hp
      by_cases hq : q (f a) = true
      · simp only [List.filter_cons, hp, Bool.false_eq_true, if_neg, List.map_cons, hq,
          if_pos, List.length_cons, not_false_iff]
        exact Nat.le_succ_of_le ih'
      · simp only [Bool.not_eq_true] at hq
        simpa [List.filter_cons, hp, hq] using ih'

/-- Helper: `approve` leaves every table except submissions and completions
untouched, leaves the files untouched, at most maps `approveUpd` over the
submissions, and at most appends one completion row. -/
theorem approve_shape (s : State) (sid now : Nat) :
    (approve s sid now).db.users = s.db.users ∧
    (approve s sid now).db.quests = s.db.quests ∧
    (approve s sid now).db.tasks = s.db.tasks ∧
    (approve s sid now).files = s.files ∧
    ((approve s sid now).db.submissions = s.db.submissions ∨
      (approve s sid now).db.submissions = s.db.submissions.map (approveUpd sid now)) ∧
    ((approve s sid now).db.completions = s.db.completions ∨
      ∃ c, (approve s sid now).db.completions = s.db.completions ++ [c]) := by
  simp only [approve]
  split
  · exact ⟨rfl, rfl, rfl, rfl, Or.inl rfl, Or.inl rfl⟩
  · split
    · exact ⟨rfl, rfl, rfl, rfl, Or.inr rfl, Or.inl rfl⟩
    · split
      · exact ⟨rfl, rfl, rfl, rfl, Or.inr rfl, Or.inl rfl⟩
      · split
        · split
          · exact ⟨rfl, rfl, rfl, rfl, Or.inr rfl, Or.inl rfl⟩
          · exact ⟨rfl, rfl, rfl, rfl, Or.inr rfl, Or.inr ⟨_, rfl⟩⟩
        · exact ⟨rfl, rfl, rfl, rfl, Or.inr rfl, Or.inl rfl⟩

/-- C1: the count the approve handler compares against the quest's
`required_completions` is the user's approved-submission count across ALL
quests, not the per-quest count the spec describes.  At exS1 the user has
one approved submission in quest 1 and one newly approved in quest 2
(per-quest count 1 < threshold 2), yet because the global count is 2 the
handler inserts a QuestCompletion for quest 2. -/
theorem approve_threshold_uses_global_count :
    approvedCount (approve exS1 2 9).db 1 = 2 ∧
    perQuestApprovedCount (approve exS1 2 9).db 1 2 = 1 ∧
    (findQuest exS1.db.quests 2).map (fun q => q.required_completions) = some 2 ∧
    findCompletion exS1.db.completions 2 1 = none ∧
    (findCompletion (approve exS1 2 9).db.completions 2 1).isSome = true := by
  decide

/-- C2: the check-then-insert of the approve handler preserves the
invariant that at most one QuestCompletion row exists per (quest, user)
pair, no matter how often approval is re-invoked. -/
theorem approve_preserves_completionsUnique (s : State) (sid now : Nat)
    (h : completionsUnique s.db) : completionsUnique (approve s sid now).db := by
  unfold completionsUnique at h ⊢
  simp only [approve]
  split
  · exact h
  · split
    · exact h
    · split
      · exact h
      · split
        · split
          · exact h
          · rename_i heq
            rw [List.pairwise_append]
            refine ⟨h, List.pairwise_singleton _ _, ?_⟩
            intro a ha b hb
            simp only [List.mem_singleton] at hb
            subst hb
            unfold findCompletion at heq
            rw [List.find?_eq_none] at heq
            have := heq a ha
            simp only [Bool.and_eq_true, beq_iff_eq, not_and] at this
            intro hab
            exact this hab.1 hab.2
        · exact h

/-- Witness for C2: at exS2 the completion row for (quest 1, user 1) already
exists and submission 1 is re-approved; uniqueness holds before and after. -/
theorem approve_preserves_completionsUnique_witness :
    completionsUnique exS2.db ∧ completionsUnique (approve exS2 1 9).db :=
  ⟨by decide, approve_preserves_completionsUnique exS2 1 9 (by decide)⟩

/-- C4 counterexample: the reject handler deletes whatever submission id it
is given, including an approved one — at exS4 rejecting approved submission
1 drops the user's approved count for quest 1 from 1 to 0, so the count is
not monotone under every operation. -/
theorem reject_can_decrease_perQuestApprovedCount :
    perQuestApprovedCount exS4.db 1 1 = 1 ∧
    perQuestApprovedCount (reject exS4 1).db 1 1 = 0 := by
  decide

/-- C4 amended: the approve operation itself never decreases any user's
per-quest approved-submission count (it only flips one submission's
approval flag to true and possibly appends a completion row). -/
theorem approve_monotone_perQuestApprovedCount (s : State) (sid now uid qid : Nat) :
    perQuestApprovedCount s.db uid qid ≤ perQuestApprovedCount (approve s sid now).db uid qid := by
  obtain ⟨-, -, h3, -, h5, -⟩ := approve_shape s sid now
  unfold perQuestApprovedCount
  rw [h3]
  rcases h5 with h | h
  · rw [h]
  · rw [h]
    apply length_filter_le_map
    intro x _ hpx
    simp only [Bool.and_eq_true] at hpx
    unfold approveUpd
    by_cases hid : (x.id == sid) = true
    · simp [hid, hpx.1.1, hpx.2]
    · simp only [Bool.not_eq_true] at hid
      simp [hid, hpx.1.1, hpx.1.2, hpx.2]

/-- C5 counterexample: rejecting the approved submission of exS5 deletes the
row, so the (quest 1, user 1) completion count changes — rejection does not
leave every completion count unchanged when pointed at an approved
submission. -/
theorem reject_approved_changes_completion_count :
    (reject exS5 1).db.submissions = [] ∧
    perQuestApprovedCount (reject exS5 1).db 1 1 ≠ perQuestApprovedCount exS5.db 1 1 := by
  decide

/-- Helper: boolean equality on Nat is symmetric. -/
theorem nat_beq_symm (m n : Nat) : (m == n) = (n == m) := by
  by_cases h : m = n
  · subst h; rfl
  · rw [beq_eq_false_iff_ne.mpr h, beq_eq_false_iff_ne.mpr (Ne.symm h)]

/-- Helper: membership of a task id in the projected filtered submission
list is the existence test the spec's wording uses. -/
theorem contains_map_task_id (p : Submission → Bool) (tid : Nat) (l : List Submission) :
    ((l.filter p).map (fun x => x.task_id)).contains tid
      = l.any (fun x => p x && x.task_id == tid) := by
  induction l with
  | nil => rfl
  | cons a l ih =>
    by_cases hp : p a = true
    · simp only [List.filter_cons, hp, if_pos, List.map_cons, List.contains_cons,
        List.any_cons, ih, Bool.true_and]
      rw [nat_beq_symm]
    · simp only [Bool.not_eq_true] at hp
      simp only [List.filter_cons, hp, Bool.false_eq_true, if_neg, not_false_iff,
        List.any_cons, Bool.false_and, Bool.false_or]
      exact ih

/-- C9: for every store, user, task and date, the display state the
active-quest view computes equals the spec's four-state precedence
(approved, else pending, else scheduled strictly in the future, else
available), and a task gets a submission button exactly when it is
available. -/
theorem taskDisplayState_matches_spec (db : DB) (uid : Nat) (today : String)
    (t : Task) (tasks : List Task) :
    taskDisplayState (approvedTaskIds db uid) (pendingTaskIds db uid) today t
      = specTaskDisplayState db uid today t ∧
    (t ∈ offeredTasks db uid tasks today ↔ t ∈ tasks ∧
      taskDisplayState (approvedTaskIds db uid) (pendingTaskIds db uid) today t
        = TaskDisplay.available) := by
  constructor
  · unfold taskDisplayState specTaskDisplayState approvedTaskIds pendingTaskIds
    rw [contains_map_task_id, contains_map_task_id]
  · simp [offeredTasks, List.mem_filter]

/-- C10: approving a submission id changes at most that submission's
`is_approved` and `approved_at` fields (the `approveUpd` map), inserts at
most one QuestCompletion row, keeps every user, quest and task row and
every other submission, and deletes no photo file. -/
theorem approve_frame (s : State) (sid now : Nat) :
    (approve s sid now).db.users = s.db.users ∧
    (approve s sid now).db.quests = s.db.quests ∧
    (approve s sid now).db.tasks = s.db.tasks ∧
    (approve s sid now).files = s.files ∧
    ((approve s sid now).db.submissions = s.db.submissions ∨
      (approve s sid now).db.submissions = s.db.submissions.map (approveUpd sid now)) ∧
    ((approve s sid now).db.completions = s.db.completions ∨
      ∃ c, (approve s sid now).db.completions = s.db.completions ++ [c]) ∧
    (∀ x ∈ s.db.submissions, x.id ≠ sid → x ∈ (approve s sid now).db.submissions) := by
  obtain ⟨h1, h2, h3, h4, h5, h6⟩ := approve_shape s sid now
  refine ⟨h1, h2, h3, h4, h5, h6, ?_⟩
  intro x hx hneq
  rcases h5 with h | h
  · rw [h]; exact hx
  · rw [h]
    have hupd : approveUpd sid now x = x := by
      unfold approveUpd
      have hid : (x.id == sid) = false := by simpa using hneq
      simp [hid]
    exact hupd ▸ List.mem_map_of_mem (approveUpd sid now) hx

/-- C3: creating a submission first deletes every old pending submission
row for the (task, user) pair and its photo artifact, then inserts the new
row with approval false; afterwards the pair's pending submissions are
exactly the new row, and the at-most-one-pending invariant is preserved. -/
theorem create_submission_supersedes (s : State) (tid uid : Nat)
    (photo ctext : String) (now : Nat) (h : pendingUnique s.db) :
    pendingUnique (process_complete_submission s tid uid photo ctext now).db ∧
    (process_complete_submission s tid uid photo ctext now).db.submissions.filter
        (fun x => x.task_id == tid && x.user_id == uid && !x.is_approved)
      = [newSubmissionRow s.db tid uid photo ctext now] ∧
    (∀ x ∈ s.db.submissions, x.task_id = tid → x.user_id = uid → x.is_approved = false →
      ∀ p, x.photo_url = some p →
        p ∉ (process_complete_submission s tid uid photo ctext now).files) ∧
    (newSubmissionRow s.db tid uid photo ctext now).is_approved = false := by
  refine ⟨?_, ?_, ?_, rfl⟩
  · unfold pendingUnique at h ⊢
    simp only [process_complete_submission]
    rw [List.pairwise_append]
    refine ⟨h.sublist (List.filter_sublist _), List.pairwise_singleton _ _, ?_⟩
    intro a ha b hb
    simp only [List.mem_singleton] at hb
    subst hb
    have hPa := (List.mem_filter.mp ha).2
    intro hab
    obtain ⟨h1, h2, h3, -⟩ := hab
    simp only [newSubmissionRow] at h1 h2
    simp [h1, h2, h3] at hPa
  · simp only [process_complete_submission]
    rw [List.filter_append, List.filter_filter]
    simp [Bool.and_not_self, newSubmissionRow]
  · intro x hx h1 h2 h3 p hp
    intro hmem
    simp only [process_complete_submission] at hmem
    have hpred := (List.mem_filter.mp hmem).2
    have hxold : x ∈ s.db.submissions.filter
        (fun y => y.task_id == tid && y.user_id == uid && !y.is_approved) :=
      List.mem_filter.mpr ⟨hx, by simp [h1, h2, h3]⟩
    have hany : (s.db.submissions.filter
        (fun y => y.task_id == tid && y.user_id == uid && !y.is_approved)).any
          (fun y => y.photo_url == some p) = true :=
      List.any_eq_true.mpr ⟨x, hxold, by simp [hp]⟩
    rw [hany] at hpred
    simp at hpred

/-- Witness for C3: at exS3 the second submission for task 1 supersedes the
old pending one and its photo artifact. -/
theorem create_submission_supersedes_witness :
    pendingUnique exS3.db ∧
    pendingUnique (process_complete_submission exS3 1 1 "new3.jpg" "c" 5).db ∧
    (process_complete_submission exS3 1 1 "new3.jpg" "c" 5).db.submissions.filter
        (fun x => x.task_id == 1 && x.user_id == 1 && !x.is_approved)
      = [newSubmissionRow exS3.db 1 1 "new3.jpg" "c" 5] ∧
    "old3.jpg" ∉ (process_complete_submission exS3 1 1 "new3.jpg" "c" 5).files := by
  have h := create_submission_supersedes exS3 1 1 "new3.jpg" "c" 5 (by decide)
  exact ⟨by decide, h.1, h.2.1,
    h.2.2.1 { id := 1, task_id := 1, user_id := 1, photo_url := some "old3.jpg", comment := "c",
              submitted_at := 1, is_approved := false, approved_at := none }
      (by decide) rfl rfl rfl "old3.jpg" rfl⟩

/-- Helper: a filter and its complement split the length of a list. -/
theorem length_filter_add_length_filter_not {α : Type} (p : α → Bool) (l : List α) :
    (l.filter p).length + (l.filter (fun a => !(p a))).length = l.length := by
  induction l with
  | nil => rfl
  | cons a l ih =>
    by_cases hp : p a = true <;> simp [List.filter_cons, hp] <;> omega

/-- Helper: a member of a list of length at most one is the whole list. -/
theorem mem_singleton_of_length_le_one {α : Type} {l : List α} {a : α}
    (ha : a ∈ l) (h : l.length ≤ 1) : l = [a] := by
  cases l with
  | nil => cases ha
  | cons x t =>
    cases t with
    | nil =>
      rcases List.mem_singleton.mp ha with rfl
      rfl
    | cons y u =>
      exfalso
      simp only [List.length_cons] at h
      omega

/-- Helper: dropping only elements that the count predicate already
rejects leaves a filtered length unchanged. -/
theorem length_filter_filter_eq {α : Type} (p q : α → Bool) (l : List α)
    (h : ∀ x ∈ l, q x = false → p x = false) :
    ((l.filter q).filter p).length = (l.filter p).length := by
  induction l with
  | nil => rfl
  | cons a l ih =>
    have ih' := ih fun x hx => h x (List.mem_cons_of_mem a hx)
    by_cases hq : q a = true
    · by_cases hpa : p a = true <;>
        simp [List.filter_cons, hq, hpa, ih', -List.filter_filter]
    · simp only [Bool.not_eq_true] at hq
      have hpa := h a (List.mem_cons_self a l) hq
      simp [List.filter_cons, hq, hpa, ih', -List.filter_filter]

/-- C5 amended: rejecting an existing UNAPPROVED submission deletes exactly
that row (the table keeps every row with a different id and shrinks by
one), removes its photo artifact and touches no other file, and leaves the
QuestCompletion table, every other table, and every per-quest completion
count unchanged. -/
theorem reject_pending_spec (s : State) (sid : Nat) (sub : Submission)
    (hf : findSubmission s.db.submissions sid = some sub)
    (ht : (findTask s.db.tasks sub.task_id).isSome = true)
    (hp : sub.is_approved = false)
    (hu : (s.db.submissions.filter (fun x => x.id == sid)).length ≤ 1) :
    (reject s sid).db.submissions = s.db.submissions.filter (fun x => x.id != sid) ∧
    (reject s sid).db.submissions.length + 1 = s.db.submissions.length ∧
    (∀ p, sub.photo_url = some p → p ∉ (reject s sid).files) ∧
    (reject s sid).files ⊆ s.files ∧
    (reject s sid).db.completions = s.db.completions ∧
    (reject s sid).db.quests = s.db.quests ∧
    (reject s sid).db.tasks = s.db.tasks ∧
    (reject s sid).db.users = s.db.users ∧
    (∀ uid qid, perQuestApprovedCount (reject s sid).db uid qid
      = perQuestApprovedCount s.db uid qid) := by
  obtain ⟨t, htk⟩ := Option.isSome_iff_exists.mp ht
  have hf' : s.db.submissions.find? (fun x => x.id == sid) = some sub := hf
  have hsubmem : sub ∈ s.db.submissions := List.mem_of_find?_eq_some hf'
  have hsubid : (sub.id == sid) = true :=
    @List.find?_some _ (fun x => x.id == sid) sub s.db.submissions hf'
  have hfilter_one : s.db.submissions.filter (fun x => x.id == sid) = [sub] :=
    mem_singleton_of_length_le_one (List.mem_filter.mpr ⟨hsubmem, hsubid⟩) hu
  have hred : reject s sid =
      ⟨{ s.db with submissions := s.db.submissions.filter (fun x => x.id != sid) },
        match sub.photo_url with
        | some p => s.files.filter (fun q => q != p)
        | none => s.files⟩ := by
    unfold reject
    rw [hf]
    dsimp only
    rw [htk]
  refine ⟨by rw [hred], ?_, ?_, ?_, by rw [hred], by rw [hred], by rw [hred], by rw [hred], ?_⟩
  · rw [hred]
    have hsum := length_filter_add_length_filter_not (fun x => x.id == sid) s.db.submissions
    rw [hfilter_one] at hsum
    simp only [List.length_singleton] at hsum
    simp only [bne]
    omega
  · intro p hpu
    rw [hred, hpu]
    intro hmem
    have hpred := (List.mem_filter.mp hmem).2
    simp [bne] at hpred
  · rw [hred]
    cases hpu : sub.photo_url with
    | none => exact fun a ha => ha
    | some p => exact (List.filter_sublist _).subset
  · intro uid qid
    rw [hred]
    unfold perQuestApprovedCount
    simp only [bne]
    refine length_filter_filter_eq _ _ _ ?_
    intro x hx hq
    simp only [Bool.not_eq_false'] at hq
    have hxmem : x ∈ s.db.submissions.filter (fun y => y.id == sid) :=
      List.mem_filter.mpr ⟨hx, hq⟩
    rw [hfilter_one] at hxmem
    rcases List.mem_singleton.mp hxmem with rfl
    simp [hp]

/-- Witness for the amended C5 at exS5w: rejecting the pending submission
subW5 removes one row and its photo and keeps every count. -/
theorem reject_pending_spec_witness :
    findSubmission exS5w.db.submissions 1 = some subW5 ∧
    subW5.is_approved = false ∧
    (reject exS5w 1).db.submissions.length + 1 = exS5w.db.submissions.length ∧
    "p5w.jpg" ∉ (reject exS5w 1).files ∧
    (reject exS5w 1).db.completions = exS5w.db.completions ∧
    perQuestApprovedCount (reject exS5w 1).db 1 1 = perQuestApprovedCount exS5w.db 1 1 := by
  have h := reject_pending_spec exS5w 1 subW5 (by decide) (by decide) rfl (by decide)
  exact ⟨by decide, rfl, h.2.1, h.2.2.1 "p5w.jpg" rfl, h.2.2.2.2.1,
    h.2.2.2.2.2.2.2.2 1 1⟩

/-- Helper: `contains` agrees with membership on string lists. -/
theorem contains_iff_mem_str {l : List String} {a : String} :
    l.contains a = true ↔ a ∈ l := List.elem_iff

/-- Helper: `contains` agrees with membership on Nat lists. -/
theorem contains_iff_mem_nat {l : List Nat} {a : Nat} :
    l.contains a = true ↔ a ∈ l := List.elem_iff

/-- Helper: task-file cleanup only ever removes files. -/
theorem cleanup_task_files_subset (db : DB) (fs : List String) (tid : Nat) :
    cleanup_task_files db fs tid ⊆ fs := by
  simp only [cleanup_task_files]
  split
  · exact fun a ha => (List.filter_sublist _).subset ((List.filter_sublist _).subset ha)
  · exact fun a ha => (List.filter_sublist _).subset ha

/-- Helper: task-file cleanup never adds a file. -/
theorem not_mem_cleanup_task_files (db : DB) (fs : List String) (tid : Nat) {p : String}
    (h : p ∉ fs) : p ∉ cleanup_task_files db fs tid :=
  fun hmem => h (cleanup_task_files_subset db fs tid hmem)

/-- Helper: task-file cleanup removes every photo of the task's
submissions. -/
theorem sub_photo_not_mem_cleanup_task_files (db : DB) (fs : List String) (tid : Nat)
    {x : Submission} (hx : x ∈ db.submissions) (hxt : x.task_id = tid) {p : String}
    (hp : x.photo_url = some p) : p ∉ cleanup_task_files db fs tid := by
  have hpaths : p ∈ (db.submissions.filter (fun y => y.task_id == tid)).filterMap
      (fun y => y.photo_url) :=
    List.mem_filterMap.mpr ⟨x, List.mem_filter.mpr ⟨hx, by simp [hxt]⟩, hp⟩
  have h1 : p ∉ fs.filter (fun q =>
      !(((db.submissions.filter (fun y => y.task_id == tid)).filterMap
        (fun y => y.photo_url)).contains q)) := by
    intro hmem
    have hpred := (List.mem_filter.mp hmem).2
    rw [Bool.not_eq_true'] at hpred
    have hc := contains_iff_mem_str.mpr hpaths
    rw [hpred] at hc
    simp at hc
  simp only [cleanup_task_files]
  split
  · intro hmem
    exact h1 ((List.mem_filter.mp hmem).1)
  · exact h1

/-- Helper: task-file cleanup removes the task's own image. -/
theorem task_image_not_mem_cleanup_task_files (db : DB) (fs : List String) (tid : Nat)
    {img : String} (h : (findTask db.tasks tid).bind (fun t => t.image_url) = some img) :
    img ∉ cleanup_task_files db fs tid := by
  simp only [cleanup_task_files, h]
  intro hmem
  have hpred := (List.mem_filter.mp hmem).2
  simp [bne] at hpred

/-- Helper: folding task cleanup over several tasks only removes files. -/
theorem foldl_cleanup_subset (db : DB) (ids : List Nat) :
    ∀ fs : List String, ids.foldl (cleanup_task_files db) fs ⊆ fs := by
  induction ids with
  | nil => intro fs a ha; simpa using ha
  | cons i ids ih =>
    intro fs a ha
    simp only [List.foldl_cons] at ha
    exact cleanup_task_files_subset db fs i (ih _ ha)

/-- Helper: folding task cleanup never adds a file. -/
theorem not_mem_foldl_cleanup (db : DB) (ids : List Nat) {p : String} :
    ∀ {fs : List String}, p ∉ fs → p ∉ ids.foldl (cleanup_task_files db) fs := by
  induction ids with
  | nil => intro fs h; simpa using h
  | cons i ids ih =>
    intro fs h
    simp only [List.foldl_cons]
    exact ih (not_mem_cleanup_task_files db fs i h)

/-- Helper: a file removed by the cleanup of one listed task stays removed
through the whole fold. -/
theorem mem_removed_foldl_cleanup (db : DB) (tid : Nat) {p : String}
    (hrem : ∀ fs, p ∉ cleanup_task_files db fs tid) :
    ∀ ids : List Nat, tid ∈ ids → ∀ fs, p ∉ ids.foldl (cleanup_task_files db) fs
  | [], hid => by cases hid
  | i :: ids, hid => by
    intro fs
    simp only [List.foldl_cons]
    rcases List.mem_cons.mp hid with h | h
    · subst h
      exact not_mem_foldl_cleanup db ids (hrem fs)
    · exact mem_removed_foldl_cleanup db tid hrem ids h _

/-- Helper: with pairwise-distinct primary keys, looking a member task up
by its id finds that task. -/
theorem findTask_of_mem_pairwise :
    ∀ (l : List Task) (t : Task), l.Pairwise (fun a b => a.id ≠ b.id) → t ∈ l →
      findTask l t.id = some t
  | [], _, _, ht => by cases ht
  | a :: l, t, hp, ht => by
    unfold findTask
    rcases List.mem_cons.mp ht with h | h
    · subst h
      exact List.find?_cons_of_pos _ (by simp)
    · have hne : a.id ≠ t.id := (List.pairwise_cons.mp hp).1 t h
      rw [List.find?_cons_of_neg _ (by simp [hne])]
      exact findTask_of_mem_pairwise l t (List.pairwise_cons.mp hp).2 h

/-- Helper: quest cleanup only ever removes files. -/
theorem cleanup_quest_files_subset (db : DB) (fs : List String) (qid : Nat) :
    cleanup_quest_files db fs qid ⊆ fs := by
  simp only [cleanup_quest_files]
  split
  · exact fun a ha => foldl_cleanup_subset db _ fs ((List.filter_sublist _).subset ha)
  · exact foldl_cleanup_subset db _ fs

/-- Helper: quest cleanup removes every submission photo of every task of
the quest. -/
theorem photo_not_mem_cleanup_quest_files (db : DB) (fs : List String) (qid : Nat)
    {t : Task} (ht : t ∈ db.tasks) (htq : t.quest_id = qid)
    {x : Submission} (hx : x ∈ db.submissions) (hxt : x.task_id = t.id)
    {p : String} (hp : x.photo_url = some p) :
    p ∉ cleanup_quest_files db fs qid := by
  have hid : t.id ∈ (db.tasks.filter (fun u => u.quest_id == qid)).map (fun u => u.id) :=
    List.mem_map.mpr ⟨t, List.mem_filter.mpr ⟨ht, by simp [htq]⟩, rfl⟩
  have h1 : p ∉ ((db.tasks.filter (fun u => u.quest_id == qid)).map (fun u => u.id)).foldl
      (cleanup_task_files db) fs :=
    mem_removed_foldl_cleanup db t.id
      (fun fs2 => sub_photo_not_mem_cleanup_task_files db fs2 t.id hx hxt hp) _ hid fs
  simp only [cleanup_quest_files]
  split
  · intro hmem; exact h1 ((List.mem_filter.mp hmem).1)
  · exact h1

/-- Helper: quest cleanup removes every task image of the quest. -/
theorem task_image_not_mem_cleanup_quest_files (db : DB) (fs : List String) (qid : Nat)
    {t : Task} (ht : t ∈ db.tasks) (htq : t.quest_id = qid)
    (htids : db.tasks.Pairwise (fun a b => a.id ≠ b.id))
    {img : String} (himg : t.image_url = some img) :
    img ∉ cleanup_quest_files db fs qid := by
  have hfind : findTask db.tasks t.id = some t := findTask_of_mem_pairwise db.tasks t htids ht
  have hrem : ∀ fs2, img ∉ cleanup_task_files db fs2 t.id :=
    fun fs2 => task_image_not_mem_cleanup_task_files db fs2 t.id
      (by rw [hfind]; simpa using himg)
  have hid : t.id ∈ (db.tasks.filter (fun u => u.quest_id == qid)).map (fun u => u.id) :=
    List.mem_map.mpr ⟨t, List.mem_filter.mpr ⟨ht, by simp [htq]⟩, rfl⟩
  have h1 : img ∉ ((db.tasks.filter (fun u => u.quest_id == qid)).map (fun u => u.id)).foldl
      (cleanup_task_files db) fs :=
    mem_removed_foldl_cleanup db t.id hrem _ hid fs
  simp only [cleanup_quest_files]
  split
  · intro hmem; exact h1 ((List.mem_filter.mp hmem).1)
  · exact h1

/-- Helper: quest cleanup removes the quest's own image. -/
theorem quest_image_not_mem_cleanup_quest_files (db : DB) (fs : List String) (qid : Nat)
    {q : Quest} (hq : findQuest db.quests qid = some q)
    {img : String} (himg : q.image_url = some img) :
    img ∉ cleanup_quest_files db fs qid := by
  have hbind : (findQuest db.quests qid).bind (fun u => u.image_url) = some img := by
    rw [hq]; simpa using himg
  simp only [cleanup_quest_files, hbind]
  intro hmem
  have hpred := (List.mem_filter.mp hmem).2
  simp [bne] at hpred

/-- C6: deleting a quest removes from disk every photo of every submission
of the quest's tasks, every task image and the quest's own image, never
adds a file, tolerates already-missing files (no conjunct assumes the path
was present), and removes the quest row, all its task rows, and all
submissions of those tasks, keeping everything else; the files are
computed by `cleanup_quest_files` from the PRE-delete database, which is
the source's filesystem-cleanup-before-database-delete ordering. -/
theorem confirm_delete_quest_spec (s : State) (qid : Nat) (q : Quest)
    (hq : findQuest s.db.quests qid = some q)
    (htids : s.db.tasks.Pairwise (fun a b => a.id ≠ b.id)) :
    (∀ t ∈ s.db.tasks, t.quest_id = qid →
      (∀ x ∈ s.db.submissions, x.task_id = t.id →
        ∀ p, x.photo_url = some p → p ∉ (confirm_delete_quest s qid).files) ∧
      (∀ p, t.image_url = some p → p ∉ (confirm_delete_quest s qid).files)) ∧
    (∀ p, q.image_url = some p → p ∉ (confirm_delete_quest s qid).files) ∧
    (confirm_delete_quest s qid).files ⊆ s.files ∧
    findQuest (confirm_delete_quest s qid).db.quests qid = none ∧
    (confirm_delete_quest s qid).db.quests = s.db.quests.filter (fun q2 => q2.id != qid) ∧
    (confirm_delete_quest s qid).db.tasks
      = s.db.tasks.filter (fun t => t.quest_id != qid) ∧
    (confirm_delete_quest s qid).db.submissions = s.db.submissions.filter
      (fun x => !(((s.db.tasks.filter (fun t => t.quest_id == qid)).map
        (fun t => t.id)).contains x.task_id)) ∧
    (∀ x ∈ (confirm_delete_quest s qid).db.submissions,
      ∀ t ∈ s.db.tasks, t.quest_id = qid → x.task_id ≠ t.id) := by
  have hred : confirm_delete_quest s qid = ⟨{ s.db with
      quests := s.db.quests.filter (fun q2 => q2.id != qid),
      tasks := s.db.tasks.filter (fun t => t.quest_id != qid),
      submissions := s.db.submissions.filter (fun x =>
        !(((s.db.tasks.filter (fun t => t.quest_id == qid)).map
          (fun t => t.id)).contains x.task_id)) },
      cleanup_quest_files s.db s.files qid⟩ := by
    unfold confirm_delete_quest
    rw [hq]
  refine ⟨?_, ?_, ?_, ?_, by rw [hred], by rw [hred], by rw [hred], ?_⟩
  · intro t htm htq
    constructor
    · intro x hxm hxt p hp
      rw [hred]
      exact photo_not_mem_cleanup_quest_files s.db s.files qid htm htq hxm hxt hp
    · intro p hp
      rw [hred]
      exact task_image_not_mem_cleanup_quest_files s.db s.files qid htm htq htids hp
  · intro p hp
    rw [hred]
    exact quest_image_not_mem_cleanup_quest_files s.db s.files qid hq hp
  · rw [hred]
    exact cleanup_quest_files_subset s.db s.files qid
  · rw [hred]
    unfold findQuest
    refine List.find?_eq_none.mpr ?_
    intro x hxm
    have hbne := (List.mem_filter.mp hxm).2
    simp only [bne, Bool.not_eq_true'] at hbne
    simp [hbne]
  · intro x hxm t htm htq heq
    rw [hred] at hxm
    have hpred := (List.mem_filter.mp hxm).2
    rw [Bool.not_eq_true'] at hpred
    have hidmem : t.id ∈ (s.db.tasks.filter (fun u => u.quest_id == qid)).map
        (fun u => u.id) :=
      List.mem_map.mpr ⟨t, List.mem_filter.mpr ⟨htm, by simp [htq]⟩, rfl⟩
    have hc := contains_iff_mem_nat.mpr (heq.symm ▸ hidmem)
    rw [hpred] at hc
    simp at hc

/-- Witness for C6 at exS6: deleting quest 1 removes the submission photos,
the task image and the quest image of quest 1, and its rows. -/
theorem confirm_delete_quest_spec_witness :
    findQuest exS6.db.quests 1 = some exQ6 ∧
    "s6a.jpg" ∉ (confirm_delete_quest exS6 1).files ∧
    "t6a.jpg" ∉ (confirm_delete_quest exS6 1).files ∧
    "q6.jpg" ∉ (confirm_delete_quest exS6 1).files ∧
    findQuest (confirm_delete_quest exS6 1).db.quests 1 = none := by
  have h := confirm_delete_quest_spec exS6 1 exQ6 (by decide) (by decide)
  have ht := h.1 { id := 1, quest_id := 1, title := "t1", description := "d",
                   image_url := some "t6a.jpg", points := 1, order := 1,
                   scheduled_date := none, is_completed := false } (by decide) rfl
  exact ⟨by decide,
    ht.1 { id := 1, task_id := 1, user_id := 1, photo_url := some "s6a.jpg", comment := "c",
           submitted_at := 1, is_approved := true, approved_at := some 2 }
      (by decide) rfl "s6a.jpg" rfl,
    ht.2 "t6a.jpg" rfl,
    h.2.1 "q6.jpg" rfl,
    h.2.2.2.1⟩

/-- Helper: `find?` only depends on the predicate pointwise. -/
theorem find?_pred_congr {α : Type} (p q : α → Bool) :
    ∀ l : List α, (∀ a, p a = q a) → l.find? p = l.find? q
  | [], _ => rfl
  | a :: l, h => by
    by_cases hp : p a = true
    · rw [List.find?_cons_of_pos _ hp, List.find?_cons_of_pos _ ((h a).symm.trans hp)]
    · have hq : ¬q a = true := fun hqa => hp ((h a).trans hqa)
      rw [List.find?_cons_of_neg _ hp, List.find?_cons_of_neg _ hq]
      exact find?_pred_congr p q l h

/-- Helper: on a list sorted strictly by id, `find?` returns the matching
element of least id. -/
theorem find?_min_quest_id (p : Quest → Bool) :
    ∀ l : List Quest, l.Pairwise (fun a b => a.id < b.id) →
      ∀ q, l.find? p = some q → ∀ b ∈ l, p b = true → q.id ≤ b.id
  | [], _, q, hf => by cases hf
  | a :: l, hs, q, hf => by
    by_cases hpa : p a = true
    · rw [List.find?_cons_of_pos _ hpa] at hf
      have ha : a = q := Option.some.inj hf
      subst ha
      intro b hb _
      rcases List.mem_cons.mp hb with h | h
      · subst h; exact Nat.le_refl _
      · exact Nat.le_of_lt ((List.pairwise_cons.mp hs).1 b h)
    · rw [List.find?_cons_of_neg _ hpa] at hf
      intro b hb hpb
      rcases List.mem_cons.mp hb with h | h
      · subst h; exact absurd hpb hpa
      · exact find?_min_quest_id p l (List.pairwise_cons.mp hs).2 q hf b h hpb

/-- Helper: the special case the source makes for an empty completed set
collapses into the single filtered lookup. -/
theorem selectCurrentQuest_eq_find? (db : DB) (uid : Nat) :
    selectCurrentQuest db uid
      = db.quests.find? (fun q => q.is_active && !((completedQuestIds db uid).contains q.id)) := by
  unfold selectCurrentQuest
  by_cases h : (completedQuestIds db uid).isEmpty = true
  · simp only [h, if_pos]
    refine find?_pred_congr _ _ _ ?_
    intro a
    rw [List.isEmpty_iff.mp h]
    simp
  · simp only [Bool.not_eq_true] at h
    simp [h]

/-- C8: the current-quest selection returns an active quest not yet in the
user's completion set, and among all such quests the one with the least id
(the head of the storage order, which is the id/creation order); being a
pure function of the store it returns the same quest on every repeated
call; and the all-quests-completed report is shown exactly when no active
uncompleted quest exists. -/
theorem selectCurrentQuest_spec (db : DB) (uid : Nat)
    (hs : db.quests.Pairwise (fun a b => a.id < b.id)) :
    (∀ q, selectCurrentQuest db uid = some q →
      q ∈ db.quests ∧ q.is_active = true ∧
      (completedQuestIds db uid).contains q.id = false ∧
      (∀ q2 ∈ db.quests, q2.is_active = true →
        (completedQuestIds db uid).contains q2.id = false → q.id ≤ q2.id)) ∧
    (allQuestsDone db uid = true ↔
      ∀ q ∈ db.quests, q.is_active = true →
        (completedQuestIds db uid).contains q.id = true) := by
  constructor
  · intro q hfq
    rw [selectCurrentQuest_eq_find?] at hfq
    have hmem : q ∈ db.quests := List.mem_of_find?_eq_some hfq
    have hpred : (q.is_active && !((completedQuestIds db uid).contains q.id)) = true :=
      @List.find?_some _
        (fun q2 => q2.is_active && !((completedQuestIds db uid).contains q2.id)) q _ hfq
    rw [Bool.and_eq_true, Bool.not_eq_true'] at hpred
    refine ⟨hmem, hpred.1, hpred.2, ?_⟩
    intro q2 hq2 hact hnc
    exact find?_min_quest_id _ db.quests hs q hfq q2 hq2 (by rw [hact, hnc]; rfl)
  · unfold allQuestsDone
    rw [selectCurrentQuest_eq_find?, Option.isNone_iff_eq_none, List.find?_eq_none]
    constructor
    · intro h q hq hact
      have := h q hq
      simp only [Bool.and_eq_true, Bool.not_eq_true', not_and] at this
      have hc := this hact
      simpa using hc
    · intro h q hq
      simp only [Bool.and_eq_true, Bool.not_eq_true', not_and]
      intro hact
      rw [h q hq hact]
      simp

/-- Witness for C8 at exDb8: quest 3 is selected (quest 1 is inactive,
quest 2 is completed) and its id is minimal among eligible quests, in
particular at most quest 4's. -/
theorem selectCurrentQuest_spec_witness :
    selectCurrentQuest exDb8 1 = some exQ3 ∧
    exQ3.is_active = true ∧
    (completedQuestIds exDb8 1).contains exQ3.id = false ∧
    exQ3.id ≤ 4 := by
  have h := (selectCurrentQuest_spec exDb8 1 (by decide)).1 exQ3 (by decide)
  exact ⟨by decide, h.2.1, h.2.2.1,
    h.2.2.2 { id := 4, title := "q4", description := "d", image_url := none,
              reward := "r4", required_completions := 1, is_active := true,
              created_by := 2 } (by decide) rfl (by decide)⟩

end QuestBot
